import Mathlib

/-
Verification of the libfault crash-diagnostics runtime (cbits/libfault/libfault.c)
against its natural-language specification.

The C source is shallowly embedded:
  * byte buffers are `List Char`; every `libfault_append_*` primitive takes the
    buffer contents written so far (the cursor position) and returns the
    extended buffer, so the cursor advance is the growth in length;
  * C unsigned integers are `Nat` (the type's range appears as an explicit
    hypothesis `v < 2 ^ w` where it matters), signed integers are `Int`;
  * the target is 64-bit Linux (LP64): sizeof(unsigned int) = 4,
    sizeof(unsigned long) = sizeof(unsigned long long) = sizeof(void*) = 8,
    and the Linux signal numbers SIGILL = 4, SIGABRT = 6, SIGBUS = 7,
    SIGFPE = 8, SIGSEGV = 11 are used;
  * the digit-emitting do-while loops run at most `v` iterations on input `v`,
    so they are embedded structurally with `v` as fuel (`digitsLEAux`), with a
    recursion equation (`decLE_eq`, `hexLE_eq`) recovering the loop shape;
  * OS effects (pipe, fork, poll, waitpid, kill, _exit, write) are modeled by
    explicit environments recording each call's result and by event lists
    recording what the code did.
-/

/- ---------------------------------------------------------------------- -/
/- Safe-format primitives (libfault.c lines 193-447)                      -/
/- ---------------------------------------------------------------------- -/

/-- Table `libfault_ascii_digits` from the source: the ten decimal digits. -/
def libfault_ascii_digits : List Char := "0123456789".data

/-- Table `libfault_ascii_chars` from the source: the sixteen hex digits. -/
def libfault_ascii_chars : List Char := "0123456789abcdef".data

/-- Indexing into `libfault_ascii_digits` (the C code indexes the array with
a value in `[0,9]`; out-of-range indices cannot occur and default to `'?'`). -/
def decChar (d : Nat) : Char := libfault_ascii_digits.getD d '?'

/-- Indexing into `libfault_ascii_chars` (always used with an index in
`[0,15]`; out-of-range indices default to `'?'`). -/
def hexChar (d : Nat) : Char := libfault_ascii_chars.getD d '?'

/-- `libfault_safe_strlen` / `strcpy` based `libfault_append_text`: copy a
NUL-terminated byte sequence at the cursor and return the advanced cursor. -/
def libfault_append_text (buf : List Char) (text : String) : List Char :=
  buf ++ text.data

/-- The digit-producing do-while loop shared (up to base and digit table) by
`libfault_append_ull` and the three hex appenders: emit the base-`b` digit of
the remainder, divide, loop while the quotient is nonzero.  `fuel` bounds the
iteration count; callers pass `v` itself, which always suffices. -/
def digitsLEAux (b : Nat) (tab : Nat → Char) : Nat → Nat → List Char
  | 0, v => [tab (v % b)]
  | fuel + 1, v =>
      if v / b = 0 then [tab (v % b)]
      else tab (v % b) :: digitsLEAux b tab fuel (v / b)

/-- Base-10 digits of `v`, least significant first: the loop body of
`libfault_append_ull`. -/
def decLE (v : Nat) : List Char := digitsLEAux 10 decChar v v

/-- Base-16 digits of `v`, least significant first: the loop body shared by
`libfault_append_hex_uint`, `libfault_append_hex_ull`, and
`libfault_append_hex_ul`. -/
def hexLE (v : Nat) : List Char := digitsLEAux 16 hexChar v v

/-- `libfault_append_ull`: base-10 ASCII of an `unsigned long long`, written
least-significant-digit first and then reversed in place
(`libfault_reverse`), which we model by `List.reverse`. -/
def libfault_append_ull (buf : List Char) (value : Nat) : List Char :=
  buf ++ (decLE value).reverse

/-- `libfault_append_hex_uint`: hex digits of an `unsigned int`, then `'0'`
padding up to `sizeof(unsigned int) * 2 = 8` characters, then reversed in
place; returns the advanced cursor. -/
def libfault_append_hex_uint (buf : List Char) (value : Nat) : List Char :=
  let s := hexLE value
  buf ++ (s ++ List.replicate (4 * 2 - s.length) '0').reverse

/-- `libfault_append_hex_ull`: as above with `sizeof(unsigned long long) * 2
= 16` characters. -/
def libfault_append_hex_ull (buf : List Char) (value : Nat) : List Char :=
  let s := hexLE value
  buf ++ (s ++ List.replicate (8 * 2 - s.length) '0').reverse

/-- `libfault_append_hex_ul`: as above with `sizeof(unsigned long) * 2 = 16`
characters (LP64). -/
def libfault_append_hex_ul (buf : List Char) (value : Nat) : List Char :=
  let s := hexLE value
  buf ++ (s ++ List.replicate (8 * 2 - s.length) '0').reverse

/-- `libfault_append_ptr2str`: on LP64 `sizeof(void*) = sizeof(unsigned long
long)`, so the second branch of the C function runs: `"0x"` followed by the
full-width hex of the pointer value. -/
def libfault_append_ptr2str (buf : List Char) (pointer : Nat) : List Char :=
  libfault_append_hex_ull (libfault_append_text buf "0x") pointer

/- ---------------------------------------------------------------------- -/
/- Recursion equations for the digit loops                                -/
/- ---------------------------------------------------------------------- -/

theorem digitsLEAux_congr (b : Nat) (hb : 2 ≤ b) (tab : Nat → Char) :
    ∀ f₁ f₂ v, v ≤ f₁ → v ≤ f₂ →
      digitsLEAux b tab f₁ v = digitsLEAux b tab f₂ v := by
  intro f₁
  induction f₁ with
  | zero =>
      intro f₂ v h₁ _
      interval_cases v
      cases f₂ <;> simp [digitsLEAux, Nat.zero_div]
  | succ f ih =>
      intro f₂ v h₁ h₂
      by_cases hv : v / b = 0
      · cases f₂ <;> simp [digitsLEAux, hv]
      · have hvpos : 0 < v := by
          rcases Nat.eq_zero_or_pos v with rfl | h
          · exact absurd (Nat.zero_div b) hv
          · exact h
        have hdiv : v / b < v := Nat.div_lt_self hvpos (by omega)
        cases f₂ with
        | zero => omega
        | succ g =>
            simp only [digitsLEAux, hv, if_false]
            rw [ih g (v / b) (by omega) (by omega)]

theorem decLE_eq (v : Nat) :
    decLE v = if v / 10 = 0 then [decChar (v % 10)]
              else decChar (v % 10) :: decLE (v / 10) := by
  by_cases hv : v / 10 = 0
  · cases v with
    | zero => simp [decLE, digitsLEAux, hv]
    | succ k => simp [decLE, digitsLEAux, hv]
  · have hvpos : 0 < v := by
      rcases Nat.eq_zero_or_pos v with rfl | h
      · exact absurd (Nat.zero_div 10) hv
      · exact h
    have hdiv : v / 10 < v := Nat.div_lt_self hvpos (by norm_num)
    cases v with
    | zero => omega
    | succ k =>
        show digitsLEAux 10 decChar (k + 1) (k + 1) = _
        simp only [digitsLEAux, hv, if_false]
        rw [digitsLEAux_congr 10 (by norm_num) decChar k ((k + 1) / 10) ((k + 1) / 10)
          (by omega) (le_refl _)]
        rfl

theorem hexLE_eq (v : Nat) :
    hexLE v = if v / 16 = 0 then [hexChar (v % 16)]
              else hexChar (v % 16) :: hexLE (v / 16) := by
  by_cases hv : v / 16 = 0
  · cases v with
    | zero => simp [hexLE, digitsLEAux, hv]
    | succ k => simp [hexLE, digitsLEAux, hv]
  · have hvpos : 0 < v := by
      rcases Nat.eq_zero_or_pos v with rfl | h
      · exact absurd (Nat.zero_div 16) hv
      · exact h
    have hdiv : v / 16 < v := Nat.div_lt_self hvpos (by norm_num)
    cases v with
    | zero => omega
    | succ k =>
        show digitsLEAux 16 hexChar (k + 1) (k + 1) = _
        simp only [digitsLEAux, hv, if_false]
        rw [digitsLEAux_congr 16 (by norm_num) hexChar k ((k + 1) / 16) ((k + 1) / 16)
          (by omega) (le_refl _)]
        rfl

/- ---------------------------------------------------------------------- -/
/- Canonical representations (spec side)                                  -/
/- ---------------------------------------------------------------------- -/

/-- Specification-side value: the zero-padded, most-significant-digit-first
base-16 representation of `v` in exactly `w` characters (digit `i` from the
left has weight `16 ^ (w - 1 - i)`). -/
def hexFixed : Nat → Nat → List Char
  | 0, _ => []
  | w + 1, v => hexFixed w (v / 16) ++ [hexChar (v % 16)]

/-- Specification-side value, fuel step: the decimal representation of `n`,
most significant digit first, with no leading zeros. -/
def specDecimalAux : Nat → Nat → List Char
  | 0, n => [decChar n]
  | fuel + 1, n =>
      if n < 10 then [decChar n]
      else specDecimalAux fuel (n / 10) ++ [decChar (n % 10)]

/-- Specification-side value: the decimal representation of `n`, most
significant digit first, with no leading zeros (fuel `n` always suffices). -/
def specDecimal (n : Nat) : List Char := specDecimalAux n n

/-- Value of a most-significant-digit-first decimal string, used to certify
that `specDecimal` really is the decimal representation. -/
def decValue (l : List Char) : Nat :=
  l.foldl (fun a c => 10 * a + (c.toNat - 48)) 0

theorem specDecimalAux_congr :
    ∀ f₁ f₂ n, n ≤ f₁ → n ≤ f₂ → specDecimalAux f₁ n = specDecimalAux f₂ n := by
  intro f₁
  induction f₁ with
  | zero =>
      intro f₂ n h₁ _
      interval_cases n
      cases f₂ <;> simp [specDecimalAux]
  | succ f ih =>
      intro f₂ n h₁ h₂
      by_cases hn : n < 10
      · cases f₂ <;> simp [specDecimalAux, hn]
      · have hdiv : n / 10 < n := Nat.div_lt_self (by omega) (by norm_num)
        cases f₂ with
        | zero => omega
        | succ g =>
            simp only [specDecimalAux, hn, if_false]
            rw [ih g (n / 10) (by omega) (by omega)]

theorem specDecimal_eq (n : Nat) :
    specDecimal n = if n < 10 then [decChar n]
                    else specDecimal (n / 10) ++ [decChar (n % 10)] := by
  by_cases hn : n < 10
  · cases n with
    | zero => simp [specDecimal, specDecimalAux, hn]
    | succ k => simp [specDecimal, specDecimalAux, hn]
  · have hdiv : n / 10 < n := Nat.div_lt_self (by omega) (by norm_num)
    cases n with
    | zero => omega
    | succ k =>
        show specDecimalAux (k + 1) (k + 1) = _
        simp only [specDecimalAux, hn, if_false]
        rw [specDecimalAux_congr k ((k + 1) / 10) ((k + 1) / 10) (by omega) (le_refl _)]
        rfl

theorem decChar_toNat (d : Nat) (hd : d < 10) : (decChar d).toNat - 48 = d := by
  interval_cases d <;> decide

/-- Sanity check that `specDecimal` is canonical: it decodes back to `n`. -/
theorem specDecimal_decodes (n : Nat) : decValue (specDecimal n) = n := by
  suffices h : ∀ fuel n a, n ≤ fuel →
      (specDecimalAux fuel n).foldl (fun a c => 10 * a + (c.toNat - 48)) a
        = a * 10 ^ (specDecimalAux fuel n).length + n by
    have := h n n 0 (le_refl n)
    simpa [decValue, specDecimal] using this
  intro fuel
  induction fuel with
  | zero =>
      intro n a h
      interval_cases n
      simp [specDecimalAux, decChar_toNat 0 (by norm_num)]
      ring
  | succ f ih =>
      intro n a h
      by_cases hn : n < 10
      · simp [specDecimalAux, hn, decChar_toNat n hn]
        ring
      · have hdiv : n / 10 < n := Nat.div_lt_self (by omega) (by norm_num)
        simp only [specDecimalAux, hn, if_false, List.foldl_append, List.length_append,
          List.foldl_cons, List.foldl_nil, List.length_cons, List.length_nil]
        rw [ih (n / 10) a (by omega)]
        rw [decChar_toNat (n % 10) (Nat.mod_lt n (by norm_num))]
        have : a * 10 ^ ((specDecimalAux f (n / 10)).length + (0 + 1))
            = (a * 10 ^ (specDecimalAux f (n / 10)).length) * 10 := by ring
        rw [this]
        omega

theorem decLE_reverse_eq (n : Nat) : (decLE n).reverse = specDecimal n := by
  suffices h : ∀ fuel n, n ≤ fuel →
      (digitsLEAux 10 decChar fuel n).reverse = specDecimalAux fuel n by
    exact h n n (le_refl n)
  intro fuel
  induction fuel with
  | zero =>
      intro n h
      interval_cases n
      simp [digitsLEAux, specDecimalAux]
  | succ f ih =>
      intro n h
      have hiff : n / 10 = 0 ↔ n < 10 := Nat.div_eq_zero_iff (by norm_num)
      by_cases hn : n < 10
      · simp [digitsLEAux, specDecimalAux, hiff.mpr hn, hn, Nat.mod_eq_of_lt hn]
      · have hdiv : n / 10 < n := Nat.div_lt_self (by omega) (by norm_num)
        have hne : ¬ n / 10 = 0 := fun h0 => hn (hiff.mp h0)
        simp only [digitsLEAux, specDecimalAux, hne, if_false, hn, List.reverse_cons]
        rw [ih (n / 10) (by omega)]

/-- `libfault_append_ull` writes exactly the canonical decimal form. -/
theorem append_ull_eq (buf : List Char) (v : Nat) :
    libfault_append_ull buf v = buf ++ specDecimal v := by
  rw [libfault_append_ull, decLE_reverse_eq]

theorem hexFixed_length (w v : Nat) : (hexFixed w v).length = w := by
  induction w generalizing v with
  | zero => rfl
  | succ w ih => simp [hexFixed, ih]

theorem hexFixed_zero (w : Nat) : hexFixed w 0 = List.replicate w '0' := by
  induction w with
  | zero => rfl
  | succ w ih =>
      have : hexChar (0 % 16) = '0' := by decide
      simp [hexFixed, ih, this, List.replicate_succ']

theorem hexLE_fixed (w v : Nat) (hv : v < 16 ^ (w + 1)) :
    hexFixed (w + 1) v
      = List.replicate (w + 1 - (hexLE v).length) '0' ++ (hexLE v).reverse := by
  induction w generalizing v with
  | zero =>
      have h0 : v / 16 = 0 := Nat.div_eq_of_lt (by simpa using hv)
      rw [hexLE_eq]
      simp [hexFixed, h0, hexFixed_zero]
  | succ w ih =>
      rw [hexLE_eq]
      by_cases h0 : v / 16 = 0
      · have hq : v / 16 = 0 := h0
        simp only [h0, if_pos]
        show hexFixed (w + 2) v = _
        simp [hexFixed, hq, hexFixed_zero, List.replicate_succ']
        decide
      · have hq : v / 16 < 16 ^ (w + 1) := by
          exact (Nat.div_lt_iff_lt_mul (show 0 < 16 by norm_num)).mpr
            (by calc v < 16 ^ (w + 1 + 1) := hv
                _ = 16 ^ (w + 1) * 16 := by ring)
        simp only [h0, if_false]
        show hexFixed (w + 2) v = _
        have : hexFixed (w + 2) v = hexFixed (w + 1) (v / 16) ++ [hexChar (v % 16)] := rfl
        rw [this, ih (v / 16) hq]
        simp [List.append_assoc, Nat.succ_sub_succ]

/-- Core form of the three hex appenders: for an in-range value the written
bytes are exactly the `w + 1`-wide canonical representation. -/
theorem hex_append_core (w v : Nat) (hv : v < 16 ^ (w + 1)) :
    (hexLE v ++ List.replicate (w + 1 - (hexLE v).length) '0').reverse
      = hexFixed (w + 1) v := by
  rw [hexLE_fixed w v hv, List.reverse_append, List.reverse_replicate]

/-- C3: for every unsigned input value `v` of type T (unsigned int, unsigned
long, or unsigned long long), the hex append primitive writes exactly
`2*sizeof(T)` hexadecimal digits — the zero-padded, most-significant-digit-
first hexadecimal representation of `v` — into the caller's buffer and
returns the cursor advanced by exactly that many bytes. -/
theorem hex_append_width_complete (buf : List Char) (a b c : Nat)
    (ha : a < 2 ^ 32) (hb : b < 2 ^ 64) (hc : c < 2 ^ 64) :
    libfault_append_hex_uint buf a = buf ++ hexFixed 8 a
    ∧ (libfault_append_hex_uint buf a).length = buf.length + 8
    ∧ libfault_append_hex_ull buf b = buf ++ hexFixed 16 b
    ∧ (libfault_append_hex_ull buf b).length = buf.length + 16
    ∧ libfault_append_hex_ul buf c = buf ++ hexFixed 16 c
    ∧ (libfault_append_hex_ul buf c).length = buf.length + 16 := by
  have ha' : a < 16 ^ 8 := by
    have : (16 : Nat) ^ 8 = 2 ^ 32 := by norm_num
    omega
  have hb' : b < 16 ^ 16 := by
    have : (16 : Nat) ^ 16 = 2 ^ 64 := by norm_num
    omega
  have hc' : c < 16 ^ 16 := by
    have : (16 : Nat) ^ 16 = 2 ^ 64 := by norm_num
    omega
  have h1 : libfault_append_hex_uint buf a = buf ++ hexFixed 8 a := by
    show buf ++ (hexLE a ++ List.replicate (7 + 1 - (hexLE a).length) '0').reverse
        = buf ++ hexFixed (7 + 1) a
    exact congrArg (buf ++ ·) (hex_append_core 7 a ha')
  have h2 : libfault_append_hex_ull buf b = buf ++ hexFixed 16 b := by
    show buf ++ (hexLE b ++ List.replicate (15 + 1 - (hexLE b).length) '0').reverse
        = buf ++ hexFixed (15 + 1) b
    exact congrArg (buf ++ ·) (hex_append_core 15 b hb')
  have h3 : libfault_append_hex_ul buf c = buf ++ hexFixed 16 c := by
    show buf ++ (hexLE c ++ List.replicate (15 + 1 - (hexLE c).length) '0').reverse
        = buf ++ hexFixed (15 + 1) c
    exact congrArg (buf ++ ·) (hex_append_core 15 c hc')
  refine ⟨h1, ?_, h2, ?_, h3, ?_⟩
  · rw [h1]; simp [hexFixed_length]
  · rw [h2]; simp [hexFixed_length]
  · rw [h3]; simp [hexFixed_length]

/-- Witness for C3 at concrete inputs. -/
theorem hex_append_width_complete_witness :
    libfault_append_hex_uint [] 3735928559 = ([] : List Char) ++ hexFixed 8 3735928559
    ∧ (libfault_append_hex_uint [] 3735928559).length = ([] : List Char).length + 8
    ∧ libfault_append_hex_ull [] 81985529216486895
        = ([] : List Char) ++ hexFixed 16 81985529216486895
    ∧ (libfault_append_hex_ull [] 81985529216486895).length = ([] : List Char).length + 16
    ∧ libfault_append_hex_ul [] 987654321 = ([] : List Char) ++ hexFixed 16 987654321
    ∧ (libfault_append_hex_ul [] 987654321).length = ([] : List Char).length + 16 :=
  hex_append_width_complete [] 3735928559 81985529216486895 987654321
    (by norm_num) (by norm_num) (by norm_num)

/- ---------------------------------------------------------------------- -/
/- Signal numbers and append_signo (libfault.c lines 431-447)             -/
/- ---------------------------------------------------------------------- -/

/-- Linux numeric value of SIGILL. -/
def SIGILL : Nat := 4
/-- Linux numeric value of SIGABRT. -/
def SIGABRT : Nat := 6
/-- Linux numeric value of SIGBUS. -/
def SIGBUS : Nat := 7
/-- Linux numeric value of SIGFPE. -/
def SIGFPE : Nat := 8
/-- Linux numeric value of SIGSEGV. -/
def SIGSEGV : Nat := 11

/-- Shared fallthrough tail of the `libfault_append_signo` switch: the
mnemonic followed by `"("`, the decimal signal number, `")"`. -/
def signoNameParen (buf : List Char) (nm : String) (signo : Nat) : List Char :=
  libfault_append_text
    (libfault_append_ull (libfault_append_text (libfault_append_text buf nm) "(") signo)
    ")"

/-- `libfault_append_signo`: the switch assigns a mnemonic for the five
handled signals and falls through to an `"(N)"` suffix; the default case
returns the decimal number alone. -/
def libfault_append_signo (buf : List Char) (signo : Nat) : List Char :=
  if signo = SIGABRT then signoNameParen buf "SIGABRT" signo
  else if signo = SIGSEGV then signoNameParen buf "SIGSEGV" signo
  else if signo = SIGBUS then signoNameParen buf "SIGBUS" signo
  else if signo = SIGFPE then signoNameParen buf "SIGFPE" signo
  else if signo = SIGILL then signoNameParen buf "SIGILL" signo
  else libfault_append_ull buf signo

/-- C7: for every signal number `n`, `append_signo` writes the textual name
followed by `(n)` when `n` is one of SIGABRT, SIGSEGV, SIGBUS, SIGFPE,
SIGILL, and writes the decimal number alone for every other `n`, returning
the advanced cursor. -/
theorem append_signo_cases (buf : List Char) (n : Nat)
    (hn : n ∉ ([SIGABRT, SIGSEGV, SIGBUS, SIGFPE, SIGILL] : List Nat)) :
    libfault_append_signo buf SIGABRT = buf ++ "SIGABRT(6)".data
    ∧ libfault_append_signo buf SIGSEGV = buf ++ "SIGSEGV(11)".data
    ∧ libfault_append_signo buf SIGBUS = buf ++ "SIGBUS(7)".data
    ∧ libfault_append_signo buf SIGFPE = buf ++ "SIGFPE(8)".data
    ∧ libfault_append_signo buf SIGILL = buf ++ "SIGILL(4)".data
    ∧ libfault_append_signo buf n = buf ++ specDecimal n := by
  have h6 : n ≠ 6 := by intro h; exact hn (by simp [SIGABRT, h])
  have h11 : n ≠ 11 := by intro h; exact hn (by simp [SIGSEGV, h])
  have h7 : n ≠ 7 := by intro h; exact hn (by simp [SIGBUS, h])
  have h8 : n ≠ 8 := by intro h; exact hn (by simp [SIGFPE, h])
  have h4 : n ≠ 4 := by intro h; exact hn (by simp [SIGILL, h])
  refine ⟨?_, ?_, ?_, ?_, ?_, ?_⟩
  · simp only [libfault_append_signo, signoNameParen, libfault_append_text,
      libfault_append_ull, SIGABRT, SIGSEGV, SIGBUS, SIGFPE, SIGILL, List.append_assoc]
    norm_num
    decide
  · simp only [libfault_append_signo, signoNameParen, libfault_append_text,
      libfault_append_ull, SIGABRT, SIGSEGV, SIGBUS, SIGFPE, SIGILL, List.append_assoc]
    norm_num
    decide
  · simp only [libfault_append_signo, signoNameParen, libfault_append_text,
      libfault_append_ull, SIGABRT, SIGSEGV, SIGBUS, SIGFPE, SIGILL, List.append_assoc]
    norm_num
    decide
  · simp only [libfault_append_signo, signoNameParen, libfault_append_text,
      libfault_append_ull, SIGABRT, SIGSEGV, SIGBUS, SIGFPE, SIGILL, List.append_assoc]
    norm_num
    decide
  · simp only [libfault_append_signo, signoNameParen, libfault_append_text,
      libfault_append_ull, SIGABRT, SIGSEGV, SIGBUS, SIGFPE, SIGILL, List.append_assoc]
    norm_num
    decide
  · simp only [libfault_append_signo, SIGABRT, SIGSEGV, SIGBUS, SIGFPE, SIGILL,
      h6, h11, h7, h8, h4, if_false]
    rw [append_ull_eq]

/-- Witness for C7 at the unknown signal number 29. -/
theorem append_signo_cases_witness :
    libfault_append_signo [] SIGABRT = ([] : List Char) ++ "SIGABRT(6)".data
    ∧ libfault_append_signo [] SIGSEGV = ([] : List Char) ++ "SIGSEGV(11)".data
    ∧ libfault_append_signo [] SIGBUS = ([] : List Char) ++ "SIGBUS(7)".data
    ∧ libfault_append_signo [] SIGFPE = ([] : List Char) ++ "SIGFPE(8)".data
    ∧ libfault_append_signo [] SIGILL = ([] : List Char) ++ "SIGILL(4)".data
    ∧ libfault_append_signo [] 29 = ([] : List Char) ++ specDecimal 29 :=
  append_signo_cases [] 29 (by decide)

/- ---------------------------------------------------------------------- -/
/- Environment helpers (libfault.c lines 238-263)                         -/
/- ---------------------------------------------------------------------- -/

/-- `libfault_env_get`: `getenv`'s result is an `Option String` (`none` for
an unset variable).  The C code returns the value only when it is non-NULL
and its first byte is not NUL (i.e. the string is nonempty); otherwise it
returns the supplied default. -/
def libfault_env_get (getenvResult : Option String) (dflt : Option String) :
    Option String :=
  match getenvResult with
  | some v => if v ≠ "" then some v else dflt
  | none => dflt

/-- `libfault_env_enabled`: looks the variable up with a NULL default, then
compares the value with `strcmp` against the eight exact strings `yes`,
`YES`, `y`, `Y`, `on`, `ON`, `true`, `TRUE`. -/
def libfault_env_enabled (getenvResult : Option String) (dflt : Bool) : Bool :=
  match libfault_env_get getenvResult none with
  | some v =>
      v == "yes" || v == "YES" || v == "y" || v == "Y"
        || v == "on" || v == "ON" || v == "true" || v == "TRUE"
  | none => dflt

/-- C5 counterexample: the claim says every case variant of yes/y/on/true
(e.g. "Yes", "True", "oN") is recognized as truthy, but the code only
accepts the all-lowercase and all-uppercase spellings, so the mixed-case
variants are falsy. -/
theorem env_enabled_mixed_case_cex :
    libfault_env_enabled (some "Yes") false = false
    ∧ libfault_env_enabled (some "True") false = false
    ∧ libfault_env_enabled (some "oN") false = false := by decide

/-- C5 (amended): for the enablement check used for LIBFAULT_ABORT_HANDLER,
LIBFAULT_BEEP_ON_ABORT and LIBFAULT_STOP_ON_ABORT, a non-empty value is
truthy exactly when it is one of the eight exact strings `yes`, `YES`, `y`,
`Y`, `on`, `ON`, `true`, `TRUE`; any other non-empty value is falsy. -/
theorem env_enabled_truthy_amended (v : String) (d : Bool) (hv : v ≠ "") :
    libfault_env_enabled (some v) d = true
      ↔ v ∈ (["yes", "YES", "y", "Y", "on", "ON", "true", "TRUE"] : List String) := by
  simp only [libfault_env_enabled, libfault_env_get, hv, if_pos, ne_eq,
    not_false_iff, if_true]
  simp [Bool.or_eq_true, beq_iff_eq, List.mem_cons, or_assoc]

/-- Witness for the amended C5 at the value "on". -/
theorem env_enabled_truthy_amended_witness :
    libfault_env_enabled (some "on") false = true
      ↔ "on" ∈ (["yes", "YES", "y", "Y", "on", "ON", "true", "TRUE"] : List String) :=
  env_enabled_truthy_amended "on" false (by decide)

/-- C10: a configuration variable set to the empty string is treated exactly
as if it were unset: the lookup helper returns the supplied default, and the
enablement check returns its default value. -/
theorem env_empty_as_unset (dflt : Option String) (d : Bool) :
    libfault_env_get (some "") dflt = dflt
    ∧ libfault_env_get none dflt = dflt
    ∧ libfault_env_enabled (some "") d = d
    ∧ libfault_env_enabled none d = d := by
  refine ⟨by simp [libfault_env_get], rfl, by simp [libfault_env_enabled, libfault_env_get], rfl⟩

/- ---------------------------------------------------------------------- -/
/- Emergency pipes (libfault.c lines 208-209, 1766-1779)                  -/
/- ---------------------------------------------------------------------- -/

/-- The four descriptor slots `emergencyPipe1[0..1]`, `emergencyPipe2[0..1]`. -/
structure EmergencyPipes where
  pipe1read : Int
  pipe1write : Int
  pipe2read : Int
  pipe2write : Int
deriving DecidableEq

/-- The close sequence at the top of `libfault_abort_handler`: each slot not
equal to -1 is `close`d, then all four slots are assigned -1.  The first
component collects the descriptors actually passed to `close`. -/
def libfault_close_emergency_pipes (s : EmergencyPipes) : List Int × EmergencyPipes :=
  let closes :=
    (if s.pipe1read ≠ -1 then [s.pipe1read] else [])
      ++ (if s.pipe1write ≠ -1 then [s.pipe1write] else [])
      ++ (if s.pipe2read ≠ -1 then [s.pipe2read] else [])
      ++ (if s.pipe2write ≠ -1 then [s.pipe2write] else [])
  (closes, ⟨-1, -1, -1, -1⟩)

/-- C9: the emergency-pipe close sequence is idempotent: after one execution
all four descriptor slots equal -1, and running the sequence a second time
closes no descriptor and leaves the state unchanged. -/
theorem emergency_pipe_close_idempotent (s : EmergencyPipes) :
    (libfault_close_emergency_pipes s).2 = ⟨-1, -1, -1, -1⟩
    ∧ libfault_close_emergency_pipes (libfault_close_emergency_pipes s).2
        = (([] : List Int), (libfault_close_emergency_pipes s).2) := by
  have h2 : (libfault_close_emergency_pipes s).2 = ⟨-1, -1, -1, -1⟩ := rfl
  refine ⟨h2, ?_⟩
  rw [h2]
  decide

/- ---------------------------------------------------------------------- -/
/- File-descriptor limit fallback (libfault.c lines 585-618, 625-820)     -/
/- ---------------------------------------------------------------------- -/

/-- Value of INT_MAX on the modeled target. -/
def INT_MAX : Int := 2147483647

/-- `libfault_get_fd_limit`: combines the `sysconf(_SC_OPEN_MAX)` result and
the `getrlimit(RLIMIT_NOFILE)` result (`rlimitFailed` models a -1 return of
`getrlimit`, which makes the code use 0). -/
def libfault_get_fd_limit (sysconfResult : Int) (rlimitFailed : Bool) (rlimMax : Int) : Int :=
  let rlimitResult : Int := if rlimitFailed then 0 else rlimMax
  let result : Int :=
    if rlimitResult ≥ INT_MAX ∨ sysconfResult > rlimitResult then sysconfResult
    else rlimitResult
  if result < 0 then 9999
  else if result < 2 then 2
  else result

/-- `libfault_get_highest_fd`, reduced to its fallback decision: when the
primary mechanism (the F_MAXFD fcntl, or the forked /dev/fd—/proc/self/fd
scanner) has failed, its result variable is still -1 and the function falls
back to `libfault_get_fd_limit`; otherwise the primary result is returned. -/
def libfault_get_highest_fd (primaryResult : Int) (sysconfResult : Int)
    (rlimitFailed : Bool) (rlimMax : Int) : Int :=
  if primaryResult = -1 then libfault_get_fd_limit sysconfResult rlimitFailed rlimMax
  else primaryResult

/-- C4 counterexample: with sysconf reporting 100000 and getrlimit failing,
the fallback value is 100000, outside the claimed interval [2, 9999]. -/
theorem fd_limit_clamp_cex :
    libfault_get_highest_fd (-1) 100000 true 0 = 100000
    ∧ ¬ (libfault_get_highest_fd (-1) 100000 true 0 ≤ 9999) := by decide

/-- The limit the code selects before clamping: the value of the local
`result` at libfault.c:599-607 — the sysconf result when the rlimit value is
at least INT_MAX or smaller than the sysconf result, otherwise the rlimit
value (a failed `getrlimit` counting as 0). -/
def fdLimitSelected (sysconfResult : Int) (rlimitFailed : Bool) (rlimMax : Int) : Int :=
  let rlimitResult : Int := if rlimitFailed then 0 else rlimMax
  if rlimitResult ≥ INT_MAX ∨ sysconfResult > rlimitResult then sysconfResult
  else rlimitResult

/-- `libfault_get_fd_limit` is exactly the selected limit clamped from
below: 9999 for a negative selected limit, 2 for a selected limit of 0 or
1, the selected limit itself otherwise (definitional unfolding of
lines 609-617). -/
theorem fd_limit_eq_clamp_selected (s rm : Int) (rf : Bool) :
    libfault_get_fd_limit s rf rm
      = if fdLimitSelected s rf rm < 0 then 9999
        else if fdLimitSelected s rf rm < 2 then 2
        else fdLimitSelected s rf rm := rfl

/-- C4 (amended): whenever `highest_fd` falls back to the resource limit,
the fallback value is the selected sysconf / rlimit limit clamped only from
below — it is 9999 when the selected limit is negative, 2 when the selected
limit is 0 or 1, and the selected limit itself (unchanged, possibly above
9999) when the selected limit is at least 2; in every case the result is at
least 2. -/
theorem fd_limit_fallback_range (p s rm : Int) (rf : Bool) (hp : p = -1) :
    2 ≤ libfault_get_highest_fd p s rf rm
    ∧ (fdLimitSelected s rf rm < 0 → libfault_get_highest_fd p s rf rm = 9999)
    ∧ (0 ≤ fdLimitSelected s rf rm ∧ fdLimitSelected s rf rm < 2 →
        libfault_get_highest_fd p s rf rm = 2)
    ∧ (2 ≤ fdLimitSelected s rf rm →
        libfault_get_highest_fd p s rf rm = fdLimitSelected s rf rm) := by
  subst hp
  have hfd : libfault_get_highest_fd (-1) s rf rm = libfault_get_fd_limit s rf rm := by
    simp [libfault_get_highest_fd]
  rw [hfd, fd_limit_eq_clamp_selected]
  refine ⟨?_, ?_, ?_, ?_⟩
  · split_ifs <;> omega
  · intro h
    split_ifs
    omega
  · rintro ⟨h0, h2⟩
    split_ifs <;> omega
  · intro h
    split_ifs <;> omega

/-- Witness for the amended C4 (sysconf 5000, rlimit 300: the selected
limit is 5000 and is returned unchanged). -/
theorem fd_limit_fallback_range_witness :
    2 ≤ libfault_get_highest_fd (-1) 5000 false 300
    ∧ (fdLimitSelected 5000 false 300 < 0 →
        libfault_get_highest_fd (-1) 5000 false 300 = 9999)
    ∧ (0 ≤ fdLimitSelected 5000 false 300 ∧ fdLimitSelected 5000 false 300 < 2 →
        libfault_get_highest_fd (-1) 5000 false 300 = 2)
    ∧ (2 ≤ fdLimitSelected 5000 false 300 →
        libfault_get_highest_fd (-1) 5000 false 300 = fdLimitSelected 5000 false 300) :=
  fd_limit_fallback_range (-1) 5000 300 false rfl

/- ---------------------------------------------------------------------- -/
/- Subprocess runner (libfault.c lines 854-915)                           -/
/- ---------------------------------------------------------------------- -/

/-- OS interactions performed by `libfault_run_subprocess`, in order.
`closeReadEnd` / `closeWriteEnd` are `close(p[0])` / `close(p[1])`. -/
inductive SubprocEvent
  | writeErr (msg : List Char)
  | closeReadEnd
  | closeWriteEnd
  | pollCall (timeoutMs : Int)
  | killSig (pid : Int) (sig : Nat)
  | callbackRun
  | exitCall (code : Nat)
  | waitCall (pid : Int)
deriving DecidableEq

/-- Results the OS hands back during one `libfault_run_subprocess` call:
whether `pipe` fails (and its errno), the `fork` result (-1 failure, 0 child,
positive child pid in the parent), the `poll` return, and the `waitpid`
return and status. -/
structure SubprocEnv where
  pipeFails : Bool
  pipeErrno : Nat
  forkResult : Int
  forkErrno : Nat
  pollResult : Int
  waitResult : Int
  waitStatus : Int

/-- Message written through `state->msg_buffer` when `pipe()` fails. -/
def subprocPipeFailMsg (e : Nat) : List Char :=
  libfault_append_text
    (libfault_append_ull
      (libfault_append_text [] "Could not create subprocess: pipe() failed with errno=") e)
    "\n"

/-- Message written through `state->msg_buffer` when `fork()` fails. -/
def subprocForkFailMsg (e : Nat) : List Char :=
  libfault_append_text
    (libfault_append_ull
      (libfault_append_text [] "Could not create subprocess: fork() failed with errno=") e)
    "\n"

/-- SIGKILL's number on the modeled target. -/
def SIGKILL : Nat := 9

/-- `libfault_run_subprocess`: pipe, safe-fork, child runs the callback and
`_exit`s; the parent polls the read end with `POLLIN|POLLHUP|POLLERR` for
`timeLimit` ms, SIGKILLs the child when the poll returns ≤ 0, closes the
read end and waits.  The second component is the return value; `none` models
the child path, which never returns (`_exit(0)` precedes the dead
`return -1`). -/
def libfault_run_subprocess (env : SubprocEnv) (timeLimit : Int) :
    List SubprocEvent × Option Int :=
  if env.pipeFails then
    ([.writeErr (subprocPipeFailMsg env.pipeErrno)], some (-1))
  else if env.forkResult = 0 then
    ([.closeReadEnd, .callbackRun, .exitCall 0], none)
  else if env.forkResult = -1 then
    ([.closeReadEnd, .closeWriteEnd, .writeErr (subprocForkFailMsg env.forkErrno)],
     some (-1))
  else
    ([SubprocEvent.closeWriteEnd, .pollCall timeLimit]
      ++ (if env.pollResult ≤ 0 then
            [SubprocEvent.killSig env.forkResult SIGKILL,
             .writeErr ("Could not run child process: it did not exit in time\n").data]
          else [])
      ++ [SubprocEvent.closeReadEnd, .waitCall env.forkResult],
     if env.waitResult = env.forkResult then some env.waitStatus else some (-1))

/-- C2: if pipe creation fails, `run_subprocess` reports the error via the
scratch buffer and returns -1; otherwise (in the parent, fork having
succeeded) it polls the read end for `timeLimit` ms, sends SIGKILL to the
child exactly when the poll returns ≤ 0, and then waits for the child,
returning the child's exit status on successful wait and -1 on unexpected
failure. -/
theorem run_subprocess_contract (env : SubprocEnv) (timeLimit : Int) :
    (env.pipeFails →
       (libfault_run_subprocess env timeLimit).2 = some (-1)
       ∧ SubprocEvent.writeErr (subprocPipeFailMsg env.pipeErrno)
           ∈ (libfault_run_subprocess env timeLimit).1)
    ∧ (¬ env.pipeFails → 0 < env.forkResult →
       SubprocEvent.pollCall timeLimit ∈ (libfault_run_subprocess env timeLimit).1
       ∧ (SubprocEvent.killSig env.forkResult SIGKILL
            ∈ (libfault_run_subprocess env timeLimit).1
          ↔ env.pollResult ≤ 0)
       ∧ (env.waitResult = env.forkResult →
            (libfault_run_subprocess env timeLimit).2 = some env.waitStatus)
       ∧ (env.waitResult ≠ env.forkResult →
            (libfault_run_subprocess env timeLimit).2 = some (-1))) := by
  constructor
  · intro hp
    simp [libfault_run_subprocess, hp]
  · intro hp hf
    have h0 : ¬ env.forkResult = 0 := by omega
    have h1 : ¬ env.forkResult = -1 := by omega
    refine ⟨?_, ?_, ?_, ?_⟩
    · simp [libfault_run_subprocess, hp, h0, h1]
    · by_cases hpoll : env.pollResult ≤ 0
      · simp [libfault_run_subprocess, hp, h0, h1, hpoll]
      · simp [libfault_run_subprocess, hp, h0, h1, hpoll]
    · intro hw
      simp [libfault_run_subprocess, hp, h0, h1, hw]
    · intro hw
      simp [libfault_run_subprocess, hp, h0, h1, hw]

/-- Witness for C2: parent path with child pid 5, a timed-out poll, and a
successful wait returning status 7. -/
theorem run_subprocess_contract_witness :
    SubprocEvent.pollCall 2000
        ∈ (libfault_run_subprocess (SubprocEnv.mk false 0 5 0 0 5 7) 2000).1
    ∧ (SubprocEvent.killSig (SubprocEnv.mk false 0 5 0 0 5 7).forkResult SIGKILL
         ∈ (libfault_run_subprocess (SubprocEnv.mk false 0 5 0 0 5 7) 2000).1
       ↔ (SubprocEnv.mk false 0 5 0 0 5 7).pollResult ≤ 0)
    ∧ ((SubprocEnv.mk false 0 5 0 0 5 7).waitResult
          = (SubprocEnv.mk false 0 5 0 0 5 7).forkResult →
        (libfault_run_subprocess (SubprocEnv.mk false 0 5 0 0 5 7) 2000).2 = some 7)
    ∧ ((SubprocEnv.mk false 0 5 0 0 5 7).waitResult
          ≠ (SubprocEnv.mk false 0 5 0 0 5 7).forkResult →
        (libfault_run_subprocess (SubprocEnv.mk false 0 5 0 0 5 7) 2000).2 = some (-1)) :=
  (run_subprocess_contract (SubprocEnv.mk false 0 5 0 0 5 7) 2000).2
    (by decide) (by decide)

/- ---------------------------------------------------------------------- -/
/- Stack dumper (libfault.c lines 920-970)                                -/
/- ---------------------------------------------------------------------- -/

/-- One line of the stack dump for word index `i`: the C loop body writes
`"(" "0x" <hex of (unsigned long)(stack + i)> ") -> (" "0x" <hex of
stack[i]> ")\n"`.  `sp` is the byte address read from the machine context's
stack-pointer slot, `mem i` is the machine word `stack[i]`; word size is 8
bytes, and the pointer cast to `unsigned long` reduces mod `2 ^ 64`. -/
def libfault_dump_stack_line (sp : Nat) (mem : Nat → Nat) (i : Nat) : List Char :=
  let e := libfault_append_text [] "("
  let e := libfault_append_hex_ul (libfault_append_text e "0x") ((sp + 8 * i) % 2 ^ 64)
  let e := libfault_append_text e ") -> ("
  let e := libfault_append_hex_ul (libfault_append_text e "0x") (mem i)
  libfault_append_text e ")\n"

/-- The loop `for (i = 15; i >= 0; i--)` of `libfault_dump_stack`: emits the
line for word `i` first and counts down to word 0. -/
def libfault_dump_stack_lines (sp : Nat) (mem : Nat → Nat) : Nat → List (List Char)
  | 0 => [libfault_dump_stack_line sp mem 0]
  | i + 1 => libfault_dump_stack_line sp mem (i + 1) :: libfault_dump_stack_lines sp mem i

/-- The whole buffer written by `libfault_dump_stack` on a supported
architecture (stack pointer available from the machine context): separator,
prefix, title, the 16 word lines, separator. -/
def libfault_dump_stack (pfx : List Char) (sp : Nat) (mem : Nat → Nat) : List Char :=
  let e := libfault_append_text [] "--------------------------------------\n"
  let e := e ++ pfx
  let e := libfault_append_text e " ] Stack dump (16 words)\n"
  let e := e ++ (libfault_dump_stack_lines sp mem 15).flatten
  libfault_append_text e "--------------------------------------\n"

/-- Order asserted by claim C6 (spec side): one line per word for words
0, 1, ..., 15, beginning with the word at the stack pointer itself and
proceeding upward. -/
def stackDumpLinesClaimed (sp : Nat) (mem : Nat → Nat) : List (List Char) :=
  (List.range 16).map (libfault_dump_stack_line sp mem)

/-- C6 counterexample: the dumper does not begin with the word at the stack
pointer; at `sp = 4096` with word `i` holding value `i`, the emitted line
list differs from the claimed bottom-up order (the first line shown is the
word 15 words above the stack pointer). -/
theorem dump_stack_order_cex :
    libfault_dump_stack_lines 4096 (fun i => i) 15
      ≠ stackDumpLinesClaimed 4096 (fun i => i) := by decide

theorem dump_stack_lines_eq (sp : Nat) (mem : Nat → Nat) :
    ∀ n, libfault_dump_stack_lines sp mem n
      = (List.range (n + 1)).map (fun j => libfault_dump_stack_line sp mem (n - j)) := by
  intro n
  induction n with
  | zero => simp [libfault_dump_stack_lines]
  | succ n ih =>
      rw [show libfault_dump_stack_lines sp mem (n + 1)
          = libfault_dump_stack_line sp mem (n + 1) :: libfault_dump_stack_lines sp mem n
          from rfl, ih]
      nth_rewrite 2 [List.range_succ_eq_map]
      simp [List.map_map, Function.comp_def, Nat.succ_sub_succ]

/-- C6 (amended): on a supported architecture, the stack dumper prints
exactly 16 machine words — the 16 consecutive words starting at the stack
pointer read from the machine context — one line per word formatted as
`(address) -> (value)`, but beginning with the word 15 words above the stack
pointer and proceeding downward, ending with the word at the stack pointer
itself. -/
theorem dump_stack_16_words (pfx : List Char) (sp : Nat) (mem : Nat → Nat) :
    (libfault_dump_stack_lines sp mem 15).length = 16
    ∧ libfault_dump_stack_lines sp mem 15
        = (List.range 16).map (fun j => libfault_dump_stack_line sp mem (15 - j))
    ∧ libfault_dump_stack pfx sp mem
        = "--------------------------------------\n".data ++ pfx
          ++ " ] Stack dump (16 words)\n".data
          ++ (libfault_dump_stack_lines sp mem 15).flatten
          ++ "--------------------------------------\n".data := by
  refine ⟨?_, ?_, ?_⟩
  · rw [dump_stack_lines_eq sp mem 15]
    simp
  · exact dump_stack_lines_eq sp mem 15
  · simp [libfault_dump_stack, libfault_append_text, List.append_assoc]

/- ---------------------------------------------------------------------- -/
/- Assertion record and its dumper (libfault.c lines 160-165, 1530-1548)  -/
/- ---------------------------------------------------------------------- -/

/-- `libfault_assert_info`: `filename = none` models the NULL pointer of an
unpopulated record; `function` may be NULL even in a populated record. -/
structure libfault_assert_info where
  filename : Option String
  function : Option String
  expression : String
  line : Nat

/-- The assertion-record block written by `libfault_dump_diagnostics`: when
`filename` is set it prints separator, prefix, the expression in
parentheses, the function when present, the filename and the line; when the
record is unpopulated the block is skipped. -/
def libfault_dump_assert_block (pfx : List Char) (ai : libfault_assert_info) : List Char :=
  match ai.filename with
  | none => []
  | some fname =>
      let e := libfault_append_text [] "--------------------------------------\n"
      let e := e ++ pfx
      let e := libfault_append_text e " ] Last assertion failure: ("
      let e := libfault_append_text e ai.expression
      let e := libfault_append_text e "), "
      let e := match ai.function with
        | some f =>
            libfault_append_text (libfault_append_text (libfault_append_text e "function ") f)
              ", "
        | none => e
      let e := libfault_append_text e "file "
      let e := libfault_append_text e fname
      let e := libfault_append_text e ", line "
      let e := libfault_append_ull e ai.line
      libfault_append_text e ".\n"

/-- Contiguous-subsequence containment of one byte string in another. -/
def containsSeq (needle hay : List Char) : Prop :=
  ∃ l r, hay = l ++ needle ++ r

/-- C8: whenever an AssertRecord has been populated (its filename is set),
the dumper prints the assertion's expression, its function when present, its
filename, and its line; in particular, for an assertion trap fired with
expression "x == 1", filename "t.c", line 42, the output contains the line
"Last assertion failure: (x == 1), file t.c, line 42.". -/
theorem dump_assert_record (pfx : List Char) (ai : libfault_assert_info) (fname : String)
    (hf : ai.filename = some fname) :
    containsSeq ai.expression.data (libfault_dump_assert_block pfx ai)
    ∧ containsSeq fname.data (libfault_dump_assert_block pfx ai)
    ∧ containsSeq (specDecimal ai.line) (libfault_dump_assert_block pfx ai)
    ∧ (∀ f, ai.function = some f →
        containsSeq ("function ".data ++ f.data ++ ", ".data)
          (libfault_dump_assert_block pfx ai))
    ∧ containsSeq "Last assertion failure: (x == 1), file t.c, line 42.".data
        (libfault_dump_assert_block pfx ⟨some "t.c", none, "x == 1", 42⟩) := by
  refine ⟨?_, ?_, ?_, ?_, ?_⟩
  · cases hfun : ai.function with
    | none =>
        refine ⟨"--------------------------------------\n".data ++ pfx
          ++ " ] Last assertion failure: (".data,
          "), ".data ++ "file ".data ++ fname.data ++ ", line ".data
            ++ specDecimal ai.line ++ ".\n".data, ?_⟩
        simp [libfault_dump_assert_block, hf, hfun, libfault_append_text,
          append_ull_eq, List.append_assoc]
    | some f =>
        refine ⟨"--------------------------------------\n".data ++ pfx
          ++ " ] Last assertion failure: (".data,
          "), ".data ++ ("function ".data ++ f.data ++ ", ".data) ++ "file ".data
            ++ fname.data ++ ", line ".data ++ specDecimal ai.line ++ ".\n".data, ?_⟩
        simp [libfault_dump_assert_block, hf, hfun, libfault_append_text,
          append_ull_eq, List.append_assoc]
  · cases hfun : ai.function with
    | none =>
        refine ⟨"--------------------------------------\n".data ++ pfx
          ++ " ] Last assertion failure: (".data ++ ai.expression.data ++ "), ".data
            ++ "file ".data,
          ", line ".data ++ specDecimal ai.line ++ ".\n".data, ?_⟩
        simp [libfault_dump_assert_block, hf, hfun, libfault_append_text,
          append_ull_eq, List.append_assoc]
    | some f =>
        refine ⟨"--------------------------------------\n".data ++ pfx
          ++ " ] Last assertion failure: (".data ++ ai.expression.data ++ "), ".data
            ++ ("function ".data ++ f.data ++ ", ".data) ++ "file ".data,
          ", line ".data ++ specDecimal ai.line ++ ".\n".data, ?_⟩
        simp [libfault_dump_assert_block, hf, hfun, libfault_append_text,
          append_ull_eq, List.append_assoc]
  · cases hfun : ai.function with
    | none =>
        refine ⟨"--------------------------------------\n".data ++ pfx
          ++ " ] Last assertion failure: (".data ++ ai.expression.data ++ "), ".data
            ++ "file ".data ++ fname.data ++ ", line ".data,
          ".\n".data, ?_⟩
        simp [libfault_dump_assert_block, hf, hfun, libfault_append_text,
          append_ull_eq, List.append_assoc]
    | some f =>
        refine ⟨"--------------------------------------\n".data ++ pfx
          ++ " ] Last assertion failure: (".data ++ ai.expression.data ++ "), ".data
            ++ ("function ".data ++ f.data ++ ", ".data) ++ "file ".data ++ fname.data
            ++ ", line ".data,
          ".\n".data, ?_⟩
        simp [libfault_dump_assert_block, hf, hfun, libfault_append_text,
          append_ull_eq, List.append_assoc]
  · intro f hfun
    refine ⟨"--------------------------------------\n".data ++ pfx
      ++ " ] Last assertion failure: (".data ++ ai.expression.data ++ "), ".data,
      "file ".data ++ fname.data ++ ", line ".data ++ specDecimal ai.line ++ ".\n".data, ?_⟩
    simp [libfault_dump_assert_block, hf, hfun, libfault_append_text,
      append_ull_eq, List.append_assoc]
  · refine ⟨"--------------------------------------\n".data ++ pfx ++ " ] ".data,
      "\n".data, ?_⟩
    have key : (" ] Last assertion failure: (".data : List Char)
        ++ ("x == 1".data ++ ("), ".data ++ ("file ".data ++ ("t.c".data
          ++ (", line ".data ++ (specDecimal 42 ++ ".\n".data))))))
        = " ] ".data ++ ("Last assertion failure: (x == 1), file t.c, line 42.".data
            ++ "\n".data) := by decide
    calc libfault_dump_assert_block pfx ⟨some "t.c", none, "x == 1", 42⟩
        = "--------------------------------------\n".data
          ++ (pfx ++ (" ] Last assertion failure: (".data ++ ("x == 1".data
            ++ ("), ".data ++ ("file ".data ++ ("t.c".data ++ (", line ".data
              ++ (specDecimal 42 ++ ".\n".data)))))))) := by
          simp [libfault_dump_assert_block, libfault_append_text, append_ull_eq,
            List.append_assoc]
      _ = "--------------------------------------\n".data
          ++ (pfx ++ (" ] ".data
            ++ ("Last assertion failure: (x == 1), file t.c, line 42.".data
              ++ "\n".data))) := by rw [key]
      _ = "--------------------------------------\n".data ++ pfx ++ " ] ".data
          ++ "Last assertion failure: (x == 1), file t.c, line 42.".data
          ++ "\n".data := by simp [List.append_assoc]

/-- Witness for C8: a populated record with a function name. -/
theorem dump_assert_record_witness :
    containsSeq "x == 1".data
        (libfault_dump_assert_block "[ pid=7".data
          ⟨some "t.c", some "main", "x == 1", 42⟩)
    ∧ containsSeq "t.c".data
        (libfault_dump_assert_block "[ pid=7".data
          ⟨some "t.c", some "main", "x == 1", 42⟩)
    ∧ containsSeq (specDecimal 42)
        (libfault_dump_assert_block "[ pid=7".data
          ⟨some "t.c", some "main", "x == 1", 42⟩)
    ∧ (∀ f, (libfault_assert_info.mk (some "t.c") (some "main") "x == 1" 42).function
          = some f →
        containsSeq ("function ".data ++ f.data ++ ", ".data)
          (libfault_dump_assert_block "[ pid=7".data
            ⟨some "t.c", some "main", "x == 1", 42⟩))
    ∧ containsSeq "Last assertion failure: (x == 1), file t.c, line 42.".data
        (libfault_dump_assert_block "[ pid=7".data
          ⟨some "t.c", none, "x == 1", 42⟩) :=
  dump_assert_record "[ pid=7".data ⟨some "t.c", some "main", "x == 1", 42⟩ "t.c" rfl

/- ---------------------------------------------------------------------- -/
/- Signal reasons (libfault.c lines 449-533)                              -/
/- ---------------------------------------------------------------------- -/

/-- The fields of the kernel `siginfo_t` record read by libfault.  Linux
si_code constants: SI_USER = 0, SI_QUEUE = -1, SI_TIMER = -2, SI_MESGQ = -3,
SI_ASYNCIO = -4, SI_SIGIO = -5, SI_TKILL = -6, SI_KERNEL = 128, and the
signal-specific SEGV_MAPERR = 1, SEGV_ACCERR = 2, BUS_ADRALN = 1,
BUS_ADRERR = 2, BUS_OBJERR = 3. -/
structure siginfo_t where
  si_signo : Nat
  si_code : Int
  si_pid : Nat
  si_uid : Nat
  si_addr : Nat

/-- The C cast `(unsigned long long)` applied to a signed value. -/
def toULL (i : Int) : Nat := (i % (2 ^ 64 : Int)).toNat

/-- The mnemonic selected by the first switch of
`libfault_append_sigreason` (`none` models falling through to the unhandled
default, which prints `"#" <code>`): generic `si_code` values first, then
the SIGSEGV / SIGBUS specific codes of the inner switches. -/
def sigreasonCodeName (info : siginfo_t) : Option String :=
  if info.si_code = 0 then some "SI_USER"
  else if info.si_code = -1 then some "SI_QUEUE"
  else if info.si_code = -2 then some "SI_TIMER"
  else if info.si_code = 128 then some "SI_KERNEL"
  else if info.si_code = -4 then some "SI_ASYNCIO"
  else if info.si_code = -3 then some "SI_MESGQ"
  else if info.si_code = -5 then some "SI_SIGIO"
  else if info.si_code = -6 then some "SI_TKILL"
  else if info.si_signo = SIGSEGV ∧ info.si_code = 1 then some "SEGV_MAPERR"
  else if info.si_signo = SIGSEGV ∧ info.si_code = 2 then some "SEGV_ACCERR"
  else if info.si_signo = SIGBUS ∧ info.si_code = 1 then some "BUS_ADRALN"
  else if info.si_signo = SIGBUS ∧ info.si_code = 2 then some "BUS_ADRERR"
  else if info.si_signo = SIGBUS ∧ info.si_code = 3 then some "BUS_OBJERR"
  else none

/-- The first switch of `libfault_append_sigreason`: appends the selected
mnemonic, or `"#" <code cast to unsigned long long>` when unhandled. -/
def sigreasonSwitch (buf : List Char) (info : siginfo_t) : List Char :=
  match sigreasonCodeName info with
  | some nm => libfault_append_text buf nm
  | none => libfault_append_ull (libfault_append_text buf "#") (toULL info.si_code)

/-- The `si_code <= 0` step of `libfault_append_sigreason`: the sender
PID/UID line for user-originated signals. -/
def sigreasonSender (buf : List Char) (info : siginfo_t) : List Char :=
  if info.si_code ≤ 0 then
    libfault_append_ull
      (libfault_append_text
        (libfault_append_ull (libfault_append_text buf ", signal sent by PID ")
          info.si_pid)
        " with UID ")
      info.si_uid
  else buf

/-- `libfault_append_sigreason`: the switch, then the sender line for
`si_code <= 0`, then the `", si_addr=0x<addr>"` suffix that always
concludes. -/
def libfault_append_sigreason (buf : List Char) (info : siginfo_t) : List Char :=
  libfault_append_ptr2str
    (libfault_append_text (sigreasonSender (sigreasonSwitch buf info) info) ", si_addr=")
    info.si_addr

/-- The bytes `libfault_append_signo` writes (its action on the empty
cursor). -/
def signoChunk (n : Nat) : List Char := libfault_append_signo [] n

/-- The bytes `libfault_append_sigreason` writes (its action on the empty
cursor). -/
def reasonChunk (info : siginfo_t) : List Char := libfault_append_sigreason [] info

theorem append_signo_shift (buf : List Char) (n : Nat) :
    libfault_append_signo buf n = buf ++ signoChunk n := by
  unfold signoChunk libfault_append_signo signoNameParen
  split_ifs <;>
    simp [libfault_append_text, libfault_append_ull, List.append_assoc]

theorem sigreasonSwitch_shift (buf : List Char) (info : siginfo_t) :
    sigreasonSwitch buf info = buf ++ sigreasonSwitch [] info := by
  unfold sigreasonSwitch
  cases sigreasonCodeName info <;>
    simp [libfault_append_text, libfault_append_ull, List.append_assoc]

theorem sigreasonSender_shift (buf : List Char) (info : siginfo_t) :
    sigreasonSender buf info = buf ++ sigreasonSender [] info := by
  unfold sigreasonSender
  split_ifs <;>
    simp [libfault_append_text, libfault_append_ull, List.append_assoc]

theorem append_ptr2str_shift (buf : List Char) (p : Nat) :
    libfault_append_ptr2str buf p = buf ++ libfault_append_ptr2str [] p := by
  unfold libfault_append_ptr2str
  simp [libfault_append_text, libfault_append_hex_ull, List.append_assoc]

theorem append_sigreason_shift (buf : List Char) (info : siginfo_t) :
    libfault_append_sigreason buf info = buf ++ reasonChunk info := by
  unfold reasonChunk libfault_append_sigreason
  rw [sigreasonSwitch_shift buf info,
      sigreasonSender_shift (buf ++ sigreasonSwitch [] info) info,
      sigreasonSender_shift (sigreasonSwitch [] info) info]
  simp only [libfault_append_text]
  conv_lhs => rw [append_ptr2str_shift]
  conv_rhs => rw [append_ptr2str_shift]
  simp [List.append_assoc]

/- ---------------------------------------------------------------------- -/
/- Newline-freeness of the formatted number chunks                        -/
/- ---------------------------------------------------------------------- -/

theorem decChar_mem_digits (d : Nat) (hd : d < 10) : decChar d ∈ libfault_ascii_digits := by
  interval_cases d <;> decide

theorem hexChar_mem_chars (d : Nat) (hd : d < 16) : hexChar d ∈ libfault_ascii_chars := by
  interval_cases d <;> decide

theorem mem_digitsLEAux_dec :
    ∀ fuel v c, c ∈ digitsLEAux 10 decChar fuel v → c ∈ libfault_ascii_digits := by
  intro fuel
  induction fuel with
  | zero =>
      intro v c hc
      simp [digitsLEAux] at hc
      subst hc
      exact decChar_mem_digits _ (Nat.mod_lt v (by norm_num))
  | succ f ih =>
      intro v c hc
      by_cases hv : v / 10 = 0
      · simp [digitsLEAux, hv] at hc
        subst hc
        exact decChar_mem_digits _ (Nat.mod_lt v (by norm_num))
      · simp [digitsLEAux, hv] at hc
        rcases hc with rfl | hc
        · exact decChar_mem_digits _ (Nat.mod_lt v (by norm_num))
        · exact ih _ _ hc

theorem mem_digitsLEAux_hex :
    ∀ fuel v c, c ∈ digitsLEAux 16 hexChar fuel v → c ∈ libfault_ascii_chars := by
  intro fuel
  induction fuel with
  | zero =>
      intro v c hc
      simp [digitsLEAux] at hc
      subst hc
      exact hexChar_mem_chars _ (Nat.mod_lt v (by norm_num))
  | succ f ih =>
      intro v c hc
      by_cases hv : v / 16 = 0
      · simp [digitsLEAux, hv] at hc
        subst hc
        exact hexChar_mem_chars _ (Nat.mod_lt v (by norm_num))
      · simp [digitsLEAux, hv] at hc
        rcases hc with rfl | hc
        · exact hexChar_mem_chars _ (Nat.mod_lt v (by norm_num))
        · exact ih _ _ hc

theorem count_nl_decLE_rev (v : Nat) : ((decLE v).reverse).count '\n' = 0 := by
  refine List.count_eq_zero.mpr ?_
  intro h
  rw [List.mem_reverse] at h
  exact absurd (mem_digitsLEAux_dec v v _ h) (by decide)

theorem count_nl_specDecimal (n : Nat) : (specDecimal n).count '\n' = 0 := by
  rw [← decLE_reverse_eq]
  exact count_nl_decLE_rev n

theorem count_nl_hexPad_rev (v w : Nat) :
    ((hexLE v ++ List.replicate w '0').reverse).count '\n' = 0 := by
  refine List.count_eq_zero.mpr ?_
  intro h
  rw [List.mem_reverse, List.mem_append] at h
  rcases h with h | h
  · exact absurd (mem_digitsLEAux_hex v v _ h) (by decide)
  · exact absurd (List.eq_of_mem_replicate h) (by decide)

theorem count_nl_decLE (v : Nat) : (decLE v).count '\n' = 0 :=
  List.count_eq_zero.mpr (fun h => absurd (mem_digitsLEAux_dec v v _ h) (by decide))

theorem count_nl_hexLE (v : Nat) : (hexLE v).count '\n' = 0 :=
  List.count_eq_zero.mpr (fun h => absurd (mem_digitsLEAux_hex v v _ h) (by decide))

theorem count_nl_replicate0 (w : Nat) : (List.replicate w '0').count '\n' = 0 := by
  refine List.count_eq_zero.mpr ?_
  intro h
  exact absurd (List.eq_of_mem_replicate h) (by decide)

theorem count_nl_ptrChunk (p : Nat) :
    (libfault_append_ptr2str [] p).count '\n' = 0 := by
  unfold libfault_append_ptr2str libfault_append_hex_ull libfault_append_text
  simp [List.count_append, count_nl_hexLE, count_nl_replicate0]

theorem count_nl_signoChunk (n : Nat) : (signoChunk n).count '\n' = 0 := by
  unfold signoChunk libfault_append_signo signoNameParen
  split_ifs with h1 h2 h3 h4 h5
  · subst h1; decide
  · subst h2; decide
  · subst h3; decide
  · subst h4; decide
  · subst h5; decide
  · unfold libfault_append_ull
    simp [count_nl_decLE]

theorem codeName_no_newline (info : siginfo_t) (nm : String)
    (h : sigreasonCodeName info = some nm) : nm.data.count '\n' = 0 := by
  unfold sigreasonCodeName at h
  by_cases c1 : info.si_code = 0
  · rw [if_pos c1] at h
    injection h with h2
    subst h2
    decide
  · rw [if_neg c1] at h
    by_cases c2 : info.si_code = -1
    · rw [if_pos c2] at h
      injection h with h2
      subst h2
      decide
    · rw [if_neg c2] at h
      by_cases c3 : info.si_code = -2
      · rw [if_pos c3] at h
        injection h with h2
        subst h2
        decide
      · rw [if_neg c3] at h
        by_cases c4 : info.si_code = 128
        · rw [if_pos c4] at h
          injection h with h2
          subst h2
          decide
        · rw [if_neg c4] at h
          by_cases c5 : info.si_code = -4
          · rw [if_pos c5] at h
            injection h with h2
            subst h2
            decide
          · rw [if_neg c5] at h
            by_cases c6 : info.si_code = -3
            · rw [if_pos c6] at h
              injection h with h2
              subst h2
              decide
            · rw [if_neg c6] at h
              by_cases c7 : info.si_code = -5
              · rw [if_pos c7] at h
                injection h with h2
                subst h2
                decide
              · rw [if_neg c7] at h
                by_cases c8 : info.si_code = -6
                · rw [if_pos c8] at h
                  injection h with h2
                  subst h2
                  decide
                · rw [if_neg c8] at h
                  by_cases c9 : info.si_signo = SIGSEGV ∧ info.si_code = 1
                  · rw [if_pos c9] at h
                    injection h with h2
                    subst h2
                    decide
                  · rw [if_neg c9] at h
                    by_cases c10 : info.si_signo = SIGSEGV ∧ info.si_code = 2
                    · rw [if_pos c10] at h
                      injection h with h2
                      subst h2
                      decide
                    · rw [if_neg c10] at h
                      by_cases c11 : info.si_signo = SIGBUS ∧ info.si_code = 1
                      · rw [if_pos c11] at h
                        injection h with h2
                        subst h2
                        decide
                      · rw [if_neg c11] at h
                        by_cases c12 : info.si_signo = SIGBUS ∧ info.si_code = 2
                        · rw [if_pos c12] at h
                          injection h with h2
                          subst h2
                          decide
                        · rw [if_neg c12] at h
                          by_cases c13 : info.si_signo = SIGBUS ∧ info.si_code = 3
                          · rw [if_pos c13] at h
                            injection h with h2
                            subst h2
                            decide
                          · rw [if_neg c13] at h
                            exact Option.noConfusion h

theorem count_nl_switchChunk (info : siginfo_t) :
    (sigreasonSwitch [] info).count '\n' = 0 := by
  unfold sigreasonSwitch
  cases h : sigreasonCodeName info with
  | some nm =>
      simpa [libfault_append_text] using codeName_no_newline info nm h
  | none =>
      unfold libfault_append_ull libfault_append_text
      simp [List.count_append, count_nl_decLE]

theorem count_nl_senderChunk (info : siginfo_t) :
    (sigreasonSender [] info).count '\n' = 0 := by
  unfold sigreasonSender
  split_ifs
  · unfold libfault_append_ull libfault_append_text
    simp [List.count_append, count_nl_decLE]
  · rfl

theorem reasonChunk_eq (info : siginfo_t) :
    reasonChunk info
      = sigreasonSwitch [] info ++ sigreasonSender [] info ++ ", si_addr=".data
        ++ libfault_append_ptr2str [] info.si_addr := by
  unfold reasonChunk libfault_append_sigreason
  rw [sigreasonSender_shift (sigreasonSwitch [] info) info]
  simp only [libfault_append_text]
  conv_lhs => rw [append_ptr2str_shift]

theorem count_nl_reasonChunk (info : siginfo_t) :
    (reasonChunk info).count '\n' = 0 := by
  rw [reasonChunk_eq]
  simp [List.count_append, count_nl_switchChunk, count_nl_senderChunk, count_nl_ptrChunk]

/- ---------------------------------------------------------------------- -/
/- Root handler state machine (libfault.c lines 211, 1717-1954)           -/
/- ---------------------------------------------------------------------- -/

/-- The notice assembled in `state.msg_buffer` when the handler re-enters:
`"[ origpid=<P>, pid=<P>, timestamp=<T> ] Abort handler crashed..."`
followed by the signal name and the reason.  `again` selects between the
second-entry and third-entry text (the faulting process's pid is read twice,
via `state.pid` and a fresh `getpid()`, both yielding `pid`). -/
def crashNoticeMsg (again : Bool) (pid t signo : Nat) (info : siginfo_t) : List Char :=
  let e := libfault_append_ull (libfault_append_text [] "[ origpid=") pid
  let e := libfault_append_ull (libfault_append_text e ", pid=") pid
  let e := libfault_append_ull (libfault_append_text e ", timestamp=") t
  let e := libfault_append_text e
    (if again then " ] Abort handler crashed again! Force exiting this time. signo="
     else " ] Abort handler crashed! signo=")
  let e := libfault_append_signo e signo
  let e := libfault_append_text e ", reason="
  let e := libfault_append_sigreason e info
  libfault_append_text e "\n"

/-- Which code path of `libfault_abort_handler` ran. -/
inductive HandlerBranch
  | fullDiagnostics
  | crashedOnce
  | crashedAgain
deriving DecidableEq

/-- How the handler invocation ends: a `raise` (of a given signal) falling
through to the default disposition, or an immediate `_exit`. -/
inductive HandlerOutcome
  | raiseSig (signo : Nat)
  | exitStatus (code : Nat)
deriving DecidableEq

/-- Observable result of one handler entry: the invocation counter after the
increment, the branch taken, the notice written by the recursion branches
(empty for the normal path, whose full output is modeled by the dumpers
above), and the final outcome. -/
structure HandlerResult where
  counter : Nat
  branch : HandlerBranch
  notice : List Char
  outcome : HandlerOutcome

/-- `libfault_abort_handler` keyed on `libfault_abort_handler_called`: the
counter is incremented at entry; a value above 1 means the handler itself
faulted — at exactly 2 a one-line notice is written and the received signal
is re-raised, at 3 or more a terminal notice is written and `_exit(1)` runs;
otherwise the full diagnostic sequence runs and ends by re-raising the
original signal (`raise(signo)` with `SA_RESETHAND` dispositions). -/
def libfault_abort_handler (called signo pid t : Nat) (info : siginfo_t) : HandlerResult :=
  let calledNow := called + 1
  if calledNow > 1 then
    if calledNow = 2 then
      ⟨calledNow, .crashedOnce, crashNoticeMsg false pid t signo info, .raiseSig signo⟩
    else
      ⟨calledNow, .crashedAgain, crashNoticeMsg true pid t signo info, .exitStatus 1⟩
  else
    ⟨calledNow, .fullDiagnostics, [], .raiseSig signo⟩

/-- Entry number `e` (1-based) of a delivery sequence: the counter was
incremented once by each previous entry, so entry `e` reads `e - 1`; `sig e`
and `inf e` are the signal and siginfo delivered at that entry. -/
def handlerEntry (sig : Nat → Nat) (inf : Nat → siginfo_t) (pid t e : Nat) : HandlerResult :=
  libfault_abort_handler (e - 1) (sig e) pid t (inf e)

/-- A delivery sequence reaches `n` entries only if no entry before the
`n`-th called `_exit` (a process that exited receives no further entry). -/
def traceReaches (sig : Nat → Nat) (inf : Nat → siginfo_t) (pid t n : Nat) : Prop :=
  ∀ e, 1 ≤ e → e < n → ∀ c, (handlerEntry sig inf pid t e).outcome ≠ .exitStatus c

theorem crashNoticeMsg_eq (again : Bool) (pid t signo : Nat) (info : siginfo_t) :
    crashNoticeMsg again pid t signo info
      = "[ origpid=".data ++ specDecimal pid ++ ", pid=".data ++ specDecimal pid
        ++ ", timestamp=".data ++ specDecimal t
        ++ (if again then " ] Abort handler crashed again! Force exiting this time. signo=".data
            else " ] Abort handler crashed! signo=".data)
        ++ signoChunk signo ++ ", reason=".data ++ reasonChunk info ++ "\n".data := by
  simp only [crashNoticeMsg]
  rw [append_signo_shift, append_sigreason_shift]
  simp only [libfault_append_text, append_ull_eq]
  cases again <;> simp [List.append_assoc]

theorem count_nl_crashNotice (again : Bool) (pid t signo : Nat) (info : siginfo_t) :
    (crashNoticeMsg again pid t signo info).count '\n' = 1 := by
  rw [crashNoticeMsg_eq]
  have h1 : ("[ origpid=".data).count '\n' = 0 := by decide
  have h2 : ((", pid=").data).count '\n' = 0 := by decide
  have h3 : ((", timestamp=").data).count '\n' = 0 := by decide
  have h4 : ((" ] Abort handler crashed again! Force exiting this time. signo=").data).count
      '\n' = 0 := by decide
  have h5 : ((" ] Abort handler crashed! signo=").data).count '\n' = 0 := by decide
  have h6 : ((", reason=").data).count '\n' = 0 := by decide
  have h7 : (("\n").data).count '\n' = 1 := by decide
  cases again
  · rw [if_neg (by decide)]
    simp only [List.count_append, h1, h2, h3, h5, h6, h7, count_nl_signoChunk,
      count_nl_reasonChunk, count_nl_specDecimal]
  · rw [if_pos (by decide)]
    simp only [List.count_append, h1, h2, h3, h4, h6, h7, count_nl_signoChunk,
      count_nl_reasonChunk, count_nl_specDecimal]

/-- C1: the root handler acts on the invocation counter at entry: first
entry — full diagnostic sequence ending in a re-raise of the original
signal; second entry — a one-line notice carrying the signal name and
reason, then a re-raise of the received signal; third and later entries — a
terminal notice and `_exit(1)`; hence a delivery sequence can never produce
more than three handler entries before `_exit`. -/
theorem abort_handler_recursion_bound
    (signo pid t : Nat) (info : siginfo_t) (c : Nat) (hc : 2 ≤ c)
    (sig : Nat → Nat) (inf : Nat → siginfo_t) (n : Nat) :
    ((libfault_abort_handler 0 signo pid t info).counter = 1
      ∧ (libfault_abort_handler 0 signo pid t info).branch = HandlerBranch.fullDiagnostics
      ∧ (libfault_abort_handler 0 signo pid t info).outcome = HandlerOutcome.raiseSig signo)
    ∧ ((libfault_abort_handler 1 signo pid t info).counter = 2
      ∧ (libfault_abort_handler 1 signo pid t info).branch = HandlerBranch.crashedOnce
      ∧ (libfault_abort_handler 1 signo pid t info).outcome = HandlerOutcome.raiseSig signo
      ∧ (libfault_abort_handler 1 signo pid t info).notice
          = crashNoticeMsg false pid t signo info
      ∧ containsSeq (signoChunk signo) (libfault_abort_handler 1 signo pid t info).notice
      ∧ containsSeq (reasonChunk info) (libfault_abort_handler 1 signo pid t info).notice
      ∧ ((libfault_abort_handler 1 signo pid t info).notice).count '\n' = 1)
    ∧ ((libfault_abort_handler c signo pid t info).branch = HandlerBranch.crashedAgain
      ∧ (libfault_abort_handler c signo pid t info).outcome = HandlerOutcome.exitStatus 1
      ∧ ((libfault_abort_handler c signo pid t info).notice).count '\n' = 1)
    ∧ (traceReaches sig inf pid t n → n ≤ 3) := by
  refine ⟨⟨rfl, rfl, rfl⟩, ⟨rfl, rfl, rfl, rfl, ?_, ?_, ?_⟩, ?_, ?_⟩
  · show containsSeq (signoChunk signo) (crashNoticeMsg false pid t signo info)
    refine ⟨"[ origpid=".data ++ specDecimal pid ++ ", pid=".data ++ specDecimal pid
      ++ ", timestamp=".data ++ specDecimal t ++ " ] Abort handler crashed! signo=".data,
      ", reason=".data ++ reasonChunk info ++ "\n".data, ?_⟩
    rw [crashNoticeMsg_eq, if_neg (by decide)]
    simp [List.append_assoc]
  · show containsSeq (reasonChunk info) (crashNoticeMsg false pid t signo info)
    refine ⟨"[ origpid=".data ++ specDecimal pid ++ ", pid=".data ++ specDecimal pid
      ++ ", timestamp=".data ++ specDecimal t ++ " ] Abort handler crashed! signo=".data
      ++ signoChunk signo ++ ", reason=".data,
      "\n".data, ?_⟩
    rw [crashNoticeMsg_eq, if_neg (by decide)]
  · show (crashNoticeMsg false pid t signo info).count '\n' = 1
    exact count_nl_crashNotice false pid t signo info
  · have h1 : c + 1 > 1 := by omega
    have h2 : ¬ (c + 1 = 2) := by omega
    refine ⟨?_, ?_, ?_⟩ <;>
      simp [libfault_abort_handler, h1, h2, count_nl_crashNotice]
  · intro htr
    by_contra hgt
    push_neg at hgt
    exact absurd rfl (htr 3 (by norm_num) (by omega) 1)

/-- Witness for C1 at a concrete SIGSEGV delivery sequence. -/
theorem abort_handler_recursion_bound_witness :
    ((libfault_abort_handler 0 11 1234 1700000000 ⟨11, 1, 0, 0, 0⟩).counter = 1
      ∧ (libfault_abort_handler 0 11 1234 1700000000 ⟨11, 1, 0, 0, 0⟩).branch
          = HandlerBranch.fullDiagnostics
      ∧ (libfault_abort_handler 0 11 1234 1700000000 ⟨11, 1, 0, 0, 0⟩).outcome
          = HandlerOutcome.raiseSig 11)
    ∧ ((libfault_abort_handler 1 11 1234 1700000000 ⟨11, 1, 0, 0, 0⟩).counter = 2
      ∧ (libfault_abort_handler 1 11 1234 1700000000 ⟨11, 1, 0, 0, 0⟩).branch
          = HandlerBranch.crashedOnce
      ∧ (libfault_abort_handler 1 11 1234 1700000000 ⟨11, 1, 0, 0, 0⟩).outcome
          = HandlerOutcome.raiseSig 11
      ∧ (libfault_abort_handler 1 11 1234 1700000000 ⟨11, 1, 0, 0, 0⟩).notice
          = crashNoticeMsg false 1234 1700000000 11 ⟨11, 1, 0, 0, 0⟩
      ∧ containsSeq (signoChunk 11)
          (libfault_abort_handler 1 11 1234 1700000000 ⟨11, 1, 0, 0, 0⟩).notice
      ∧ containsSeq (reasonChunk ⟨11, 1, 0, 0, 0⟩)
          (libfault_abort_handler 1 11 1234 1700000000 ⟨11, 1, 0, 0, 0⟩).notice
      ∧ ((libfault_abort_handler 1 11 1234 1700000000 ⟨11, 1, 0, 0, 0⟩).notice).count
          '\n' = 1)
    ∧ ((libfault_abort_handler 2 11 1234 1700000000 ⟨11, 1, 0, 0, 0⟩).branch
          = HandlerBranch.crashedAgain
      ∧ (libfault_abort_handler 2 11 1234 1700000000 ⟨11, 1, 0, 0, 0⟩).outcome
          = HandlerOutcome.exitStatus 1
      ∧ ((libfault_abort_handler 2 11 1234 1700000000 ⟨11, 1, 0, 0, 0⟩).notice).count
          '\n' = 1)
    ∧ (traceReaches (fun _ => 11) (fun _ => ⟨11, 1, 0, 0, 0⟩) 1234 1700000000 3 → 3 ≤ 3) :=
  abort_handler_recursion_bound 11 1234 1700000000 ⟨11, 1, 0, 0, 0⟩ 2 (by norm_num)
    (fun _ => 11) (fun _ => ⟨11, 1, 0, 0, 0⟩) 3
